import Mathlib

/-
Verification of the Stripe webhook middleware for Hono
(`stripeWebhookMiddleware` in the repository's single source module).

The middleware factory validates the configured webhook secret against the
pattern `^whsec_[a-zA-Z0-9]+$` and returns a per-request pipeline step.  The
step reads the `stripe-signature` header (a JavaScript falsiness check, so an
empty header value counts as missing), reads the raw body, delegates to the
external verifier `Stripe.webhooks.constructEventAsync`, stores the verified
event in the context slot `event`, and then invokes `next`.  Failures raise an
`HTTPException` with status 400.

The shallow embedding below models the verifier as an explicit function
argument returning `Except`, the Hono context as a record with the `event`
slot plus an opaque remainder, and `next` as a function that may mutate the
context and either return a response value or raise a downstream error.
An execution trace records which effects the step performed (body read,
verifier invoked, context handed to `next`), so that claims about effects
never happening are directly statable.
-/

namespace StripeWebhook

/-- A JavaScript value supplied as the webhook secret: a string, `null`, or
`undefined`.  The source applies `/^whsec_[a-zA-Z0-9]+$/.test(args[0])`, and
the JS regex `test` coerces its argument to a string (`null` becomes `"null"`,
`undefined` becomes `"undefined"`). -/
inductive SecretInput where
  | str (s : String)
  | null
  | undefined
deriving DecidableEq, Repr

/-- The string that the JS regex test actually sees for a given secret input
(`String(x)` coercion semantics of `RegExp.prototype.test`). -/
def secretTestString : SecretInput → String
  | SecretInput.str s => s
  | SecretInput.null => "null"
  | SecretInput.undefined => "undefined"

/-- Character class `[a-zA-Z0-9]` of the secret pattern. -/
def isAlphaNum (c : Char) : Bool :=
  c.isAlpha || c.isDigit

/-- The six characters of the literal marker `whsec_` of the secret pattern. -/
def whsecMarker : List Char := ['w', 'h', 's', 'e', 'c', '_']

/-- The test `/^whsec_[a-zA-Z0-9]+$/.test(s)`: the string starts with
`whsec_`, and what follows is one or more alphanumeric characters, up to the
end of the string (JS `$` without the `m` flag anchors at the very end).
Stated over the character list of the string so that it evaluates by
kernel reduction. -/
def matchesWhsec (s : String) : Bool :=
  decide (s.data.take 6 = whsecMarker) && !(s.data.drop 6).isEmpty
    && (s.data.drop 6).all isAlphaNum

/-- The incoming HTTP request, as the step observes it: the value of the
`stripe-signature` header (`none` when the header is absent) and the raw
request body text. -/
structure Request where
  signatureHeader : Option String
  body : String
deriving DecidableEq, Repr

/-- The Hono per-request context: the `event` variable slot written by this
middleware, and the opaque remainder of the context (every other slot,
headers, response state, ...), which the step itself never touches. -/
structure Ctx (Ev : Type) (ρ : Type) where
  event : Option Ev
  rest : ρ
deriving DecidableEq, Repr

/-- The JavaScript falsiness test `!signature` applied to the result of
`c.req.header("stripe-signature")`: `undefined` (header absent) and the empty
string are both falsy. -/
def jsFalsyHeader : Option String → Bool
  | none => true
  | some s => s.isEmpty

/-- Observable outcome of one execution of the pipeline step:
an `HTTPException` raised by the step itself (status, message, optional
chained cause holding the verifier error), an error raised by `next` and
propagated unmodified, or normal completion carrying the downstream
response. -/
inductive StepResult (ε : Type) (δ : Type) (ν : Type) where
  | httpError (status : Nat) (message : String) (cause : Option ε)
  | nextError (e : δ)
  | ok (v : ν)
deriving DecidableEq, Repr

/-- Effect trace of one execution of the step: whether the request body was
read, whether the external verifier was invoked, and the exact context handed
to `next` (`none` when `next` was never invoked). -/
structure Trace (Ev : Type) (ρ : Type) where
  bodyRead : Bool
  verifierInvoked : Bool
  ctxAtNext : Option (Ctx Ev ρ)
deriving DecidableEq, Repr

/-- Whether `next` was invoked during the traced execution. -/
def Trace.nextInvoked {Ev ρ : Type} (t : Trace Ev ρ) : Bool :=
  t.ctxAtNext.isSome

/-- The per-request pipeline step returned by `stripeWebhookMiddleware`
(the async arrow `(c, next) => ...` of the source), with the verifier
`(body, signature) ↦ constructEventAsync(body, signature, ...args)` already
closed over the configured secret and options.  Mirrors the source line by
line: falsy-header check and 400 "Missing stripe-signature header"; body
read; verifier call in a try block whose catch raises 400
"Stripe webhook signature verification failed" with the caught error as
`cause`; `c.set("event", event)` on success; then `await next()`. -/
def webhookStep {Ev ε ρ δ ν : Type}
    (verify : String → String → Except ε Ev)
    (req : Request) (ctx : Ctx Ev ρ)
    (next : Ctx Ev ρ → Ctx Ev ρ × Except δ ν) :
    StepResult ε δ ν × Ctx Ev ρ × Trace Ev ρ :=
  if jsFalsyHeader req.signatureHeader then
    (StepResult.httpError 400 "Missing stripe-signature header" none, ctx,
      { bodyRead := false, verifierInvoked := false, ctxAtNext := none })
  else
    let signature := req.signatureHeader.getD ""
    let body := req.body
    match verify body signature with
    | Except.error cause =>
        (StepResult.httpError 400 "Stripe webhook signature verification failed"
            (some cause), ctx,
          { bodyRead := true, verifierInvoked := true, ctxAtNext := none })
    | Except.ok event =>
        let ctx1 : Ctx Ev ρ := { ctx with event := some event }
        let stepped := next ctx1
        ((match stepped.2 with
          | Except.ok v => StepResult.ok v
          | Except.error e => StepResult.nextError e),
          stepped.1,
          { bodyRead := true, verifierInvoked := true, ctxAtNext := some ctx1 })

/-- The middleware factory `stripeWebhookMiddleware(...args)` of the source:
validate the secret shape, throwing `Error("Invalid webhook secret")` on
failure (modelled as `Except.error`), otherwise return the pipeline step with
the external verifier applied to the configured secret.  `verify` stands for
`Stripe.webhooks.constructEventAsync` taking `(body, signature, secret)`;
trailing verification options are opaque and folded into `verify`. -/
def stripeWebhookMiddleware {Ev ε ρ δ ν : Type}
    (verify : String → String → String → Except ε Ev)
    (secret : SecretInput) :
    Except String
      (Request → Ctx Ev ρ → (Ctx Ev ρ → Ctx Ev ρ × Except δ ν) →
        StepResult ε δ ν × Ctx Ev ρ × Trace Ev ρ) :=
  if matchesWhsec (secretTestString secret) then
    Except.ok
      (webhookStep (fun body signature => verify body signature (secretTestString secret)))
  else
    Except.error "Invalid webhook secret"

example : matchesWhsec "whsec_test" = true := by decide
example : matchesWhsec "" = false := by decide
example : matchesWhsec "whsec_" = false := by decide
example : matchesWhsec "null" = false := by decide
example : matchesWhsec "whsec_a b" = false := by decide

example :
    (webhookStep (fun _ _ => Except.error ()) ⟨none, "b"⟩
        (⟨none, ()⟩ : Ctx Nat Unit)
        (fun c => (c, (Except.ok 0 : Except Unit Nat)))).1
      = StepResult.httpError 400 "Missing stripe-signature header" none := rfl

example :
    (webhookStep (fun _ _ => (Except.ok 7 : Except Unit Nat)) ⟨some "t=1,v1=x", "b"⟩
        (⟨none, ()⟩ : Ctx Nat Unit)
        (fun c => (c, (Except.ok 200 : Except Unit Nat)))).1
      = StepResult.ok 200 := rfl

/-- Claim C1: a secret that fails the pattern `^whsec_[a-zA-Z0-9]+$`
(including the empty string, `null` and `undefined`, whose regex-coerced
strings fail the pattern) makes `stripeWebhookMiddleware` raise the
configuration error at construction time and return no pipeline step, while
any secret matching the pattern makes construction succeed and return the
callable step. -/
theorem stripeWebhookMiddleware_secret_validation {Ev ε ρ δ ν : Type}
    (verify : String → String → String → Except ε Ev) (secret : SecretInput) :
    (matchesWhsec (secretTestString secret) = false →
      @stripeWebhookMiddleware Ev ε ρ δ ν verify secret
        = Except.error "Invalid webhook secret")
    ∧ (matchesWhsec (secretTestString secret) = true →
      @stripeWebhookMiddleware Ev ε ρ δ ν verify secret
        = Except.ok (webhookStep
            (fun body signature => verify body signature (secretTestString secret)))) := by
  constructor
  · intro h
    simp [stripeWebhookMiddleware, h]
  · intro h
    simp [stripeWebhookMiddleware, h]

/-- Witness for C1: construction fails on the empty string, on `null` and on
`undefined`, and succeeds on the valid secret `whsec_test`. -/
theorem stripeWebhookMiddleware_secret_validation_witness :
    (@stripeWebhookMiddleware Nat Unit Unit Unit Nat (fun _ _ _ => Except.error ())
        (SecretInput.str "") = Except.error "Invalid webhook secret")
    ∧ (@stripeWebhookMiddleware Nat Unit Unit Unit Nat (fun _ _ _ => Except.error ())
        SecretInput.null = Except.error "Invalid webhook secret")
    ∧ (@stripeWebhookMiddleware Nat Unit Unit Unit Nat (fun _ _ _ => Except.error ())
        SecretInput.undefined = Except.error "Invalid webhook secret")
    ∧ (@stripeWebhookMiddleware Nat Unit Unit Unit Nat (fun _ _ _ => Except.error ())
        (SecretInput.str "whsec_test")
        = Except.ok (webhookStep (fun _ _ => (Except.error () : Except Unit Nat)))) :=
  ⟨(stripeWebhookMiddleware_secret_validation _ (SecretInput.str "")).1 (by decide),
   (stripeWebhookMiddleware_secret_validation _ SecretInput.null).1 (by decide),
   (stripeWebhookMiddleware_secret_validation _ SecretInput.undefined).1 (by decide),
   (stripeWebhookMiddleware_secret_validation _ (SecretInput.str "whsec_test")).2 (by decide)⟩

/-- Claim C2: when the `stripe-signature` header is absent, the step raises
the 400 error, leaves the context untouched, and the effect trace records
that the body was never read, the verifier was never invoked, and `next` was
never invoked. -/
theorem webhookStep_missing_header {Ev ε ρ δ ν : Type}
    (verify : String → String → Except ε Ev) (req : Request) (ctx : Ctx Ev ρ)
    (next : Ctx Ev ρ → Ctx Ev ρ × Except δ ν)
    (h : req.signatureHeader = none) :
    webhookStep verify req ctx next
      = (StepResult.httpError 400 "Missing stripe-signature header" none, ctx,
          { bodyRead := false, verifierInvoked := false, ctxAtNext := none }) := by
  simp [webhookStep, jsFalsyHeader, h]

/-- Witness for C2: the missing-header outcome on a concrete request. -/
theorem webhookStep_missing_header_witness :
    webhookStep (fun _ _ => (Except.error () : Except Unit Nat)) ⟨none, "payload"⟩
        (⟨none, ()⟩ : Ctx Nat Unit) (fun c => (c, (Except.ok 200 : Except Unit Nat)))
      = (StepResult.httpError 400 "Missing stripe-signature header" none, ⟨none, ()⟩,
          { bodyRead := false, verifierInvoked := false, ctxAtNext := none }) :=
  webhookStep_missing_header _ _ _ _ rfl

/-- Claim C10: a `stripe-signature` header that is present with the empty
string as its value is treated exactly like a missing header (the JS falsy
check): the step produces the same missing-header 400 outcome, without
reading the body or invoking the verifier or `next`. -/
theorem webhookStep_empty_header {Ev ε ρ δ ν : Type}
    (verify : String → String → Except ε Ev) (req : Request) (ctx : Ctx Ev ρ)
    (next : Ctx Ev ρ → Ctx Ev ρ × Except δ ν)
    (h : req.signatureHeader = some "") :
    webhookStep verify req ctx next
      = webhookStep verify { req with signatureHeader := none } ctx next
    ∧ webhookStep verify req ctx next
      = (StepResult.httpError 400 "Missing stripe-signature header" none, ctx,
          { bodyRead := false, verifierInvoked := false, ctxAtNext := none }) := by
  obtain ⟨sh, b⟩ := req
  cases h
  exact ⟨rfl, rfl⟩

/-- Witness for C10: the empty-header outcome on a concrete request equals
the missing-header outcome. -/
theorem webhookStep_empty_header_witness :
    webhookStep (fun _ _ => (Except.error () : Except Unit Nat)) ⟨some "", "payload"⟩
        (⟨none, ()⟩ : Ctx Nat Unit) (fun c => (c, (Except.ok 200 : Except Unit Nat)))
      = webhookStep (fun _ _ => (Except.error () : Except Unit Nat)) ⟨none, "payload"⟩
          (⟨none, ()⟩ : Ctx Nat Unit) (fun c => (c, (Except.ok 200 : Except Unit Nat)))
    ∧ webhookStep (fun _ _ => (Except.error () : Except Unit Nat)) ⟨some "", "payload"⟩
        (⟨none, ()⟩ : Ctx Nat Unit) (fun c => (c, (Except.ok 200 : Except Unit Nat)))
      = (StepResult.httpError 400 "Missing stripe-signature header" none, ⟨none, ()⟩,
          { bodyRead := false, verifierInvoked := false, ctxAtNext := none }) :=
  webhookStep_empty_header _ _ _ _ rfl

/-- Claim C3: when the signature header is present (and non-empty) and the
verifier rejects, the step raises the 400 error with the constant message
and the verifier error chained as its cause (the message does not depend on
the cause), never invokes `next`, and leaves the context — in particular the
`event` slot — unchanged. -/
theorem webhookStep_verifier_rejects {Ev ε ρ δ ν : Type}
    (verify : String → String → Except ε Ev) (req : Request) (ctx : Ctx Ev ρ)
    (next : Ctx Ev ρ → Ctx Ev ρ × Except δ ν) (s : String) (err : ε)
    (hs : req.signatureHeader = some s) (hne : s.isEmpty = false)
    (hv : verify req.body s = Except.error err) :
    webhookStep verify req ctx next
      = (StepResult.httpError 400 "Stripe webhook signature verification failed"
            (some err), ctx,
          { bodyRead := true, verifierInvoked := true, ctxAtNext := none }) := by
  obtain ⟨sh, b⟩ := req
  cases hs
  simp only [Request.body] at hv
  simp [webhookStep, jsFalsyHeader, hne, hv]

/-- Witness for C3: a concrete verifier rejection with a concrete cause. -/
theorem webhookStep_verifier_rejects_witness :
    webhookStep (fun _ _ => (Except.error 42 : Except Nat Nat)) ⟨some "t=1,v1=bad", "payload"⟩
        (⟨none, ()⟩ : Ctx Nat Unit) (fun c => (c, (Except.ok 200 : Except Unit Nat)))
      = (StepResult.httpError 400 "Stripe webhook signature verification failed"
            (some 42), ⟨none, ()⟩,
          { bodyRead := true, verifierInvoked := true, ctxAtNext := none }) :=
  webhookStep_verifier_rejects _ _ _ _ "t=1,v1=bad" 42 rfl rfl rfl

/-- Claim C4: when the verifier succeeds with event `ev`, the step hands
`next` the context whose `event` slot already holds `ev` (the store happens
before `next` runs), and the final result and final context are exactly what
`next` produces: its response on success, its error propagated otherwise. -/
theorem webhookStep_verifier_ok {Ev ε ρ δ ν : Type}
    (verify : String → String → Except ε Ev) (req : Request) (ctx : Ctx Ev ρ)
    (next : Ctx Ev ρ → Ctx Ev ρ × Except δ ν) (s : String) (ev : Ev)
    (hs : req.signatureHeader = some s) (hne : s.isEmpty = false)
    (hv : verify req.body s = Except.ok ev) :
    webhookStep verify req ctx next
      = ((match (next { ctx with event := some ev }).2 with
          | Except.ok v => StepResult.ok v
          | Except.error e => StepResult.nextError e),
          (next { ctx with event := some ev }).1,
          { bodyRead := true, verifierInvoked := true,
            ctxAtNext := some { ctx with event := some ev } }) := by
  obtain ⟨sh, b⟩ := req
  cases hs
  simp only [Request.body] at hv
  simp [webhookStep, jsFalsyHeader, hne, hv]

/-- Witness for C4: a concrete successful verification stores the event and
returns the downstream response. -/
theorem webhookStep_verifier_ok_witness :
    webhookStep (fun _ _ => (Except.ok 7 : Except Unit Nat)) ⟨some "t=1,v1=abc", "payload"⟩
        (⟨none, ()⟩ : Ctx Nat Unit) (fun c => (c, (Except.ok 200 : Except Unit Nat)))
      = (StepResult.ok 200, ⟨some 7, ()⟩,
          { bodyRead := true, verifierInvoked := true, ctxAtNext := some ⟨some 7, ()⟩ }) :=
  webhookStep_verifier_ok _ _ _ _ "t=1,v1=abc" 7 rfl rfl rfl

/-- Whether a step result is an error raised by the middleware itself (an
`HTTPException`), as opposed to normal completion or an error propagated
from `next`. -/
def raisedOwnError {ε δ ν : Type} : StepResult ε δ ν → Bool
  | StepResult.httpError _ _ _ => true
  | StepResult.nextError _ => false
  | StepResult.ok _ => false

/-- Counterexample to claim C5 as stated: on a request whose signature
verifies, with a downstream `next` that raises, the step finishes by
propagating the downstream error — it does not complete without raising —
yet the `event` slot is present in the final context, because the source
sets the slot before awaiting `next`. -/
theorem webhookStep_event_iff_no_raise_cex :
    ((webhookStep (fun _ _ => (Except.ok 7 : Except Unit Nat)) ⟨some "t=1,v1=abc", "payload"⟩
        (⟨none, ()⟩ : Ctx Nat Unit)
        (fun c => (c, (Except.error "boom" : Except String Nat)))).2.1.event = some 7)
    ∧ ((webhookStep (fun _ _ => (Except.ok 7 : Except Unit Nat)) ⟨some "t=1,v1=abc", "payload"⟩
        (⟨none, ()⟩ : Ctx Nat Unit)
        (fun c => (c, (Except.error "boom" : Except String Nat)))).1
      = StepResult.nextError "boom") :=
  ⟨rfl, rfl⟩

/-- Claim C5, amended: starting from a fresh context (no `event` yet) and a
downstream `next` that does not rewrite the `event` slot, the `event` slot is
present after the step finishes if and only if the step raised no error of
its own — an error propagated from `next` leaves the slot populated. -/
theorem webhookStep_event_iff_verified {Ev ε ρ δ ν : Type}
    (verify : String → String → Except ε Ev) (req : Request) (ctx : Ctx Ev ρ)
    (next : Ctx Ev ρ → Ctx Ev ρ × Except δ ν)
    (h0 : ctx.event = none)
    (hpres : ∀ c, ((next c).1).event = c.event) :
    ((webhookStep verify req ctx next).2.1.event).isSome
      = !raisedOwnError (webhookStep verify req ctx next).1 := by
  obtain ⟨sh, b⟩ := req
  obtain ⟨e0, r0⟩ := ctx
  simp only [Ctx.event] at h0
  subst h0
  by_cases hf : jsFalsyHeader sh = true
  · simp [webhookStep, hf, raisedOwnError]
  · rw [Bool.not_eq_true] at hf
    cases hv : verify b (sh.getD "") with
    | error err => simp [webhookStep, hf, hv, raisedOwnError]
    | ok ev =>
        have hev := hpres ({ event := some ev, rest := r0 } : Ctx Ev ρ)
        cases hn : (next ({ event := some ev, rest := r0 } : Ctx Ev ρ)).2 with
        | ok v => simp [webhookStep, hf, hv, hn, raisedOwnError, hev]
        | error e => simp [webhookStep, hf, hv, hn, raisedOwnError, hev]

/-- Witness for the amended C5: on a concrete run where verification succeeds
and `next` raises, the slot is populated and the step raised no error of its
own. -/
theorem webhookStep_event_iff_verified_witness :
    ((webhookStep (fun _ _ => (Except.ok 7 : Except Unit Nat)) ⟨some "t=1,v1=abc", "payload"⟩
        (⟨none, ()⟩ : Ctx Nat Unit)
        (fun c => (c, (Except.error "boom" : Except String Nat)))).2.1.event).isSome
      = !raisedOwnError (webhookStep (fun _ _ => (Except.ok 7 : Except Unit Nat))
          ⟨some "t=1,v1=abc", "payload"⟩ (⟨none, ()⟩ : Ctx Nat Unit)
          (fun c => (c, (Except.error "boom" : Except String Nat)))).1 :=
  webhookStep_event_iff_verified _ _ _ _ rfl (fun _ => rfl)

/-- Counterexample to claim C6 as stated: the error messages the step
actually produces are "Missing stripe-signature header" and "Stripe webhook
signature verification failed", not the "Missing signature header" and
"Signature verification failed" wordings of the claim. -/
theorem webhookStep_messages_cex :
    ((webhookStep (fun _ _ => (Except.error () : Except Unit Nat)) ⟨none, "payload"⟩
        (⟨none, ()⟩ : Ctx Nat Unit) (fun c => (c, (Except.ok 0 : Except Unit Nat)))).1
      = StepResult.httpError 400 "Missing stripe-signature header" none)
    ∧ "Missing stripe-signature header" ≠ "Missing signature header"
    ∧ ((webhookStep (fun _ _ => (Except.error () : Except Unit Nat)) ⟨some "t=1", "payload"⟩
        (⟨none, ()⟩ : Ctx Nat Unit) (fun c => (c, (Except.ok 0 : Except Unit Nat)))).1
      = StepResult.httpError 400 "Stripe webhook signature verification failed" (some ()))
    ∧ "Stripe webhook signature verification failed" ≠ "Signature verification failed" :=
  ⟨rfl, by decide, rfl, by decide⟩

/-- Claim C6, amended: on every failing request the step produces status 400
with exactly the message "Missing stripe-signature header" (and no cause)
when the signature header is absent or empty, and exactly the message
"Stripe webhook signature verification failed" (with the verifier error as
cause) when the verifier rejects. -/
theorem webhookStep_messages {Ev ε ρ δ ν : Type}
    (verify : String → String → Except ε Ev) (req : Request) (ctx : Ctx Ev ρ)
    (next : Ctx Ev ρ → Ctx Ev ρ × Except δ ν) :
    (jsFalsyHeader req.signatureHeader = true →
      (webhookStep verify req ctx next).1
        = StepResult.httpError 400 "Missing stripe-signature header" none)
    ∧ (∀ err, jsFalsyHeader req.signatureHeader = false →
        verify req.body (req.signatureHeader.getD "") = Except.error err →
        (webhookStep verify req ctx next).1
          = StepResult.httpError 400 "Stripe webhook signature verification failed"
              (some err)) := by
  constructor
  · intro h
    simp [webhookStep, h]
  · intro err h hv
    simp [webhookStep, h, hv]

/-- Witness for the amended C6: both failure messages on concrete runs. -/
theorem webhookStep_messages_witness :
    ((webhookStep (fun _ _ => (Except.error () : Except Unit Nat)) ⟨none, "payload"⟩
        (⟨none, ()⟩ : Ctx Nat Unit) (fun c => (c, (Except.ok 0 : Except Unit Nat)))).1
      = StepResult.httpError 400 "Missing stripe-signature header" none)
    ∧ ((webhookStep (fun _ _ => (Except.error () : Except Unit Nat)) ⟨some "t=1", "payload"⟩
        (⟨none, ()⟩ : Ctx Nat Unit) (fun c => (c, (Except.ok 0 : Except Unit Nat)))).1
      = StepResult.httpError 400 "Stripe webhook signature verification failed" (some ())) :=
  ⟨(webhookStep_messages (fun _ _ => (Except.error () : Except Unit Nat)) ⟨none, "payload"⟩
      (⟨none, ()⟩ : Ctx Nat Unit) (fun c => (c, (Except.ok 0 : Except Unit Nat)))).1 rfl,
   (webhookStep_messages (fun _ _ => (Except.error () : Except Unit Nat)) ⟨some "t=1", "payload"⟩
      (⟨none, ()⟩ : Ctx Nat Unit) (fun c => (c, (Except.ok 0 : Except Unit Nat)))).2 () rfl rfl⟩

/-- Claim C7: the only status this component itself produces is 400, and an
error raised by `next` is propagated unmodified (the result is exactly the
downstream error raised at the context the step handed to `next`, never a
400 of this component). -/
theorem webhookStep_only_400_and_propagates {Ev ε ρ δ ν : Type}
    (verify : String → String → Except ε Ev) (req : Request) (ctx : Ctx Ev ρ)
    (next : Ctx Ev ρ → Ctx Ev ρ × Except δ ν) :
    (∀ s m c, (webhookStep verify req ctx next).1 = StepResult.httpError s m c → s = 400)
    ∧ (∀ e, (webhookStep verify req ctx next).1 = StepResult.nextError e →
        ∃ c1, (webhookStep verify req ctx next).2.2.ctxAtNext = some c1
          ∧ (next c1).2 = Except.error e) := by
  obtain ⟨sh, b⟩ := req
  by_cases hf : jsFalsyHeader sh = true
  · constructor
    · intro s m c h
      simp [webhookStep, hf] at h
      exact h.1.symm
    · intro e h
      simp [webhookStep, hf] at h
  · rw [Bool.not_eq_true] at hf
    cases hv : verify b (sh.getD "") with
    | error err =>
        constructor
        · intro s m c h
          simp [webhookStep, hf, hv] at h
          exact h.1.symm
        · intro e h
          simp [webhookStep, hf, hv] at h
    | ok ev =>
        cases hn : (next ({ ctx with event := some ev } : Ctx Ev ρ)).2 with
        | ok v =>
            constructor
            · intro s m c h
              simp [webhookStep, hf, hv, hn] at h
            · intro e h
              simp [webhookStep, hf, hv, hn] at h
        | error e0 =>
            constructor
            · intro s m c h
              simp [webhookStep, hf, hv, hn] at h
            · intro e h
              simp [webhookStep, hf, hv, hn] at h
              refine ⟨{ ctx with event := some ev }, ?_, ?_⟩
              · simp [webhookStep, hf, hv, hn]
              · rw [hn, h]

/-- Witness for C7: a concrete failing run yields status 400, and a concrete
run whose downstream raises propagates that error. -/
theorem webhookStep_only_400_and_propagates_witness :
    (400 : Nat) = 400 ∧ ("boom" : String) = "boom" := by
  constructor
  · exact (webhookStep_only_400_and_propagates
      (fun _ _ => (Except.error () : Except Unit Nat)) ⟨none, "payload"⟩
      (⟨none, ()⟩ : Ctx Nat Unit) (fun c => (c, (Except.ok 0 : Except String Nat)))).1
      400 "Missing stripe-signature header" none rfl
  · obtain ⟨c1, h1, h2⟩ := (webhookStep_only_400_and_propagates
      (fun _ _ => (Except.ok 7 : Except Unit Nat)) ⟨some "t=1,v1=abc", "payload"⟩
      (⟨none, ()⟩ : Ctx Nat Unit)
      (fun c => (c, (Except.error "boom" : Except String Nat)))).2 "boom" rfl
    rfl

/-- View of a step result keeping only the failure data this component
produces itself: the status, message and cause of the raised
`HTTPException`, or `none` when the step did not raise its own error. -/
def failureView {ε δ ν : Type} : StepResult ε δ ν → Option (Nat × String × Option ε)
  | StepResult.httpError s m c => some (s, m, c)
  | StepResult.nextError _ => none
  | StepResult.ok _ => none

/-- Claim C8: with the verifier a fixed function (deterministic), two
executions of the step on requests carrying the same signature header and
the same body — even with different contexts and different downstream
handlers — produce the same success/failure outcome: the step keeps no
hidden per-call state. -/
theorem webhookStep_failure_deterministic {Ev ε ρ ρ2 δ δ2 ν ν2 : Type}
    (verify : String → String → Except ε Ev)
    (req1 req2 : Request) (ctx1 : Ctx Ev ρ) (ctx2 : Ctx Ev ρ2)
    (next1 : Ctx Ev ρ → Ctx Ev ρ × Except δ ν)
    (next2 : Ctx Ev ρ2 → Ctx Ev ρ2 × Except δ2 ν2)
    (hh : req1.signatureHeader = req2.signatureHeader)
    (hb : req1.body = req2.body) :
    failureView (webhookStep verify req1 ctx1 next1).1
      = failureView (webhookStep verify req2 ctx2 next2).1 := by
  obtain ⟨sh1, b1⟩ := req1
  obtain ⟨sh2, b2⟩ := req2
  simp only [Request.signatureHeader] at hh
  simp only [Request.body] at hb
  subst hh
  subst hb
  by_cases hf : jsFalsyHeader sh1 = true
  · simp [webhookStep, hf, failureView]
  · rw [Bool.not_eq_true] at hf
    cases hv : verify b1 (sh1.getD "") with
    | error err => simp [webhookStep, hf, hv, failureView]
    | ok ev =>
        cases hn1 : (next1 ({ ctx1 with event := some ev } : Ctx Ev ρ)).2 with
        | ok v =>
            cases hn2 : (next2 ({ ctx2 with event := some ev } : Ctx Ev ρ2)).2 with
            | ok v2 => simp [webhookStep, hf, hv, hn1, hn2, failureView]
            | error e2 => simp [webhookStep, hf, hv, hn1, hn2, failureView]
        | error e =>
            cases hn2 : (next2 ({ ctx2 with event := some ev } : Ctx Ev ρ2)).2 with
            | ok v2 => simp [webhookStep, hf, hv, hn1, hn2, failureView]
            | error e2 => simp [webhookStep, hf, hv, hn1, hn2, failureView]

/-- Witness for C8: two concrete runs on the same (header, body) pair with
different contexts and downstream handlers agree on the failure outcome. -/
theorem webhookStep_failure_deterministic_witness :
    failureView (webhookStep (fun _ _ => (Except.error 42 : Except Nat Nat))
        ⟨some "t=1,v1=bad", "payload"⟩ (⟨none, ()⟩ : Ctx Nat Unit)
        (fun c => (c, (Except.ok 200 : Except Unit Nat)))).1
      = failureView (webhookStep (fun _ _ => (Except.error 42 : Except Nat Nat))
          ⟨some "t=1,v1=bad", "payload"⟩ (⟨some 9, true⟩ : Ctx Nat Bool)
          (fun c => (c, (Except.error "boom" : Except String Nat)))).1 :=
  webhookStep_failure_deterministic _ _ _ _ _ _ _ rfl rfl

/-- Claim C9: the step never touches any part of the context other than the
`event` slot: when `next` is not invoked the final context is exactly the
input context, and when `next` is invoked the context handed to it differs
from the input context at most in the `event` slot (its remainder is
unchanged), the final context being whatever `next` produced. -/
theorem webhookStep_frame {Ev ε ρ δ ν : Type}
    (verify : String → String → Except ε Ev) (req : Request) (ctx : Ctx Ev ρ)
    (next : Ctx Ev ρ → Ctx Ev ρ × Except δ ν) :
    ((webhookStep verify req ctx next).2.2.ctxAtNext = none →
      (webhookStep verify req ctx next).2.1 = ctx)
    ∧ (∀ c1, (webhookStep verify req ctx next).2.2.ctxAtNext = some c1 →
        c1.rest = ctx.rest ∧ (webhookStep verify req ctx next).2.1 = (next c1).1) := by
  obtain ⟨sh, b⟩ := req
  by_cases hf : jsFalsyHeader sh = true
  · constructor
    · intro _
      simp [webhookStep, hf]
    · intro c1 h
      simp [webhookStep, hf] at h
  · rw [Bool.not_eq_true] at hf
    cases hv : verify b (sh.getD "") with
    | error err =>
        constructor
        · intro _
          simp [webhookStep, hf, hv]
        · intro c1 h
          simp [webhookStep, hf, hv] at h
    | ok ev =>
        constructor
        · intro h
          simp [webhookStep, hf, hv] at h
        · intro c1 h
          simp [webhookStep, hf, hv] at h
          subst h
          exact ⟨rfl, by simp [webhookStep, hf, hv]⟩

/-- Witness for C9: on a concrete failing run the context is returned
untouched, and on a concrete successful run the context handed to `next`
keeps the remainder of the input context. -/
theorem webhookStep_frame_witness :
    ((webhookStep (fun _ _ => (Except.error () : Except Unit Nat)) ⟨none, "payload"⟩
        (⟨none, ()⟩ : Ctx Nat Unit) (fun c => (c, (Except.ok 0 : Except Unit Nat)))).2.1
      = (⟨none, ()⟩ : Ctx Nat Unit))
    ∧ ((⟨some 7, false⟩ : Ctx Nat Bool).rest = (⟨none, false⟩ : Ctx Nat Bool).rest
        ∧ (webhookStep (fun _ _ => (Except.ok 7 : Except Unit Nat)) ⟨some "t=1,v1=abc", "p"⟩
            (⟨none, false⟩ : Ctx Nat Bool)
            (fun c => (c, (Except.ok 200 : Except Unit Nat)))).2.1
          = ((fun c => (c, (Except.ok 200 : Except Unit Nat))) (⟨some 7, false⟩ : Ctx Nat Bool)).1) :=
  ⟨(webhookStep_frame (fun _ _ => (Except.error () : Except Unit Nat)) ⟨none, "payload"⟩
      (⟨none, ()⟩ : Ctx Nat Unit) (fun c => (c, (Except.ok 0 : Except Unit Nat)))).1 rfl,
   (webhookStep_frame (fun _ _ => (Except.ok 7 : Except Unit Nat)) ⟨some "t=1,v1=abc", "p"⟩
      (⟨none, false⟩ : Ctx Nat Bool)
      (fun c => (c, (Except.ok 200 : Except Unit Nat)))).2 ⟨some 7, false⟩ rfl⟩

end StripeWebhook
